import Mathlib

/-!
# Verification development for the cherab/mastu equilibrium and bolometry loaders

Shallow embedding of the deterministic logic of the repository:

* `cherab/mastu/equilibrium/equilibrium.py`:
  `MASTEquilibrium._find_nearest` / `MASTUEquilibrium._find_nearest` (identical
  bodies), `MASTEquilibrium._process_efit_lcfs_polygon`, the time-slice lookup
  and boundary-polygon handling in `MASTEquilibrium.time` and
  `MASTUEquilibrium.time`, and the pulse-number guards in both constructors.
* `cherab/mastu/bolometry/detectors/load_detectors.py`:
  the chamber/camera validation of `load_default_bolometer_config`.
* `examples/bolometry/sensitivities/rtm_sensitivities.py`:
  the camera dispatch of `main`.

Sample times and coordinates are embedded as rationals (the Python code holds
64-bit floats; every comparison and arithmetic step modelled here is exact on
the concrete data used in this development).  Python exceptions are modelled
by `Except` error values, and numpy 1-D arrays by `List ℚ`.
-/

deriving instance DecidableEq for Except

namespace CherabMastu

/-- Python exception classes that the embedded equilibrium helpers can raise. -/
inductive PyErr
  | indexError
  | valueError
  deriving DecidableEq, Repr

/-- Model of `array.min()` for a numpy 1-D array.  Numpy raises on an empty array; the
empty case never occurs at the embedded call sites, so it is given the junk
value `0` and theorems carry a nonemptiness hypothesis where the minimum
matters. -/
def npMin : List ℚ → ℚ
  | [] => 0
  | x :: xs => xs.foldl min x

/-- Model of `array.max()` for a numpy 1-D array (junk value `0` on the empty array). -/
def npMax : List ℚ → ℚ
  | [] => 0
  | x :: xs => xs.foldl max x

/-- Model of `np.searchsorted(array, value, side="left")`.  Numpy documents the result
(for a sorted array, the only way the equilibrium code calls it) as the
leftmost insertion point that keeps the array sorted: every element strictly
below `value` lies to its left, so the index equals the number of elements
strictly less than `value`. -/
def searchsorted_left (array : List ℚ) (value : ℚ) : Nat :=
  array.countP (fun x => decide (x < value))

/-- Embedding of `MASTEquilibrium._find_nearest`; the body of
`MASTUEquilibrium._find_nearest` is character-for-character identical:

```python
if value < array.min() or value > array.max():
    raise IndexError("Requested value is outside the range of the data.")
index = np.searchsorted(array, value, side="left")
if (value - array[index])**2 < (value - array[index + 1])**2:
    return index
else:
    return index + 1
```

An out-of-bounds numpy element access `array[index]` or `array[index + 1]`
also raises `IndexError`; both accesses are modelled by the `Option`-valued
lookup `get?`, with the wildcard arm covering the raising cases. -/
def find_nearest (array : List ℚ) (value : ℚ) : Except PyErr Nat :=
  if value < npMin array ∨ npMax array < value then .error .indexError
  else
    let index := searchsorted_left array value
    match array.get? index, array.get? (index + 1) with
    | some ai, some ai1 =>
      if (value - ai) ^ 2 < (value - ai1) ^ 2 then .ok index else .ok (index + 1)
    | _, _ => .error .indexError

/-- Reference nearest-index algorithm, modelled from the words of the spec
(section 4.2): "binary-search for the insertion point; compare squared
distance to the sample at that index versus the next index; return whichever
is closer (ties resolve to the later index)".  A query whose insertion point
has no next sample leaves the comparison without an operand, which is a
failure just as in the implementation; the out-of-range guard of section 4.2
precedes the search. -/
def spec_find_nearest (array : List ℚ) (value : ℚ) : Except PyErr Nat :=
  if value < npMin array ∨ npMax array < value then .error .indexError
  else
    let index := searchsorted_left array value
    match array.get? index, array.get? (index + 1) with
    | some ai, some ai1 =>
      if (value - ai1) ^ 2 ≤ (value - ai) ^ 2 then .ok (index + 1) else .ok index
    | _, _ => .error .indexError

/-- Python `ValueError` classes raised by `MASTEquilibrium._process_efit_lcfs_polygon`. -/
inductive PolyErr
  | shapeMismatch
  | tooFewPoints
  deriving DecidableEq, Repr

/-- The boolean mask built by `_process_efit_lcfs_polygon`:

```python
unique = (poly_r != poly_r[0]) | (poly_z != poly_z[0])
unique[0] = True  # first point must be included!
```

Entry `i` is true iff point `i` differs from point `0` in either coordinate;
entry `0` is overwritten to true. -/
def uniqueMask : List ℚ → List ℚ → List Bool
  | r0 :: rs, z0 :: zs =>
    true :: List.zipWith (fun r z => decide (r ≠ r0) || decide (z ≠ z0)) rs zs
  | _, _ => []

/-- Numpy boolean-mask indexing `array[mask]`: keep the elements whose mask
entry is true. -/
def maskFilter : List ℚ → List Bool → List ℚ
  | x :: xs, b :: bs => if b then x :: maskFilter xs bs else maskFilter xs bs
  | _, _ => []

/-- Embedding of `MASTEquilibrium._process_efit_lcfs_polygon`:

```python
if poly_r.shape != poly_z.shape:
    raise ValueError("EFIT LCFS polygon coordinate arrays are inconsistent in length.")
n = poly_r.shape[0]
if n < 2:
    raise ValueError("EFIT LCFS polygon coordinate contain less than 2 points.")
unique = (poly_r != poly_r[0]) | (poly_z != poly_z[0])
unique[0] = True
poly_r = poly_r[unique]
poly_z = poly_z[unique]
poly_coords = np.zeros((len(poly_r), 2))
poly_coords[:, 0] = poly_r
poly_coords[:, 1] = poly_z
return poly_coords
```

The returned N×2 coordinate array is modelled as a list of (r, z) pairs. -/
def process_efit_lcfs_polygon (poly_r poly_z : List ℚ) :
    Except PolyErr (List (ℚ × ℚ)) :=
  if poly_r.length ≠ poly_z.length then .error .shapeMismatch
  else if poly_r.length < 2 then .error .tooFewPoints
  else
    let unique := uniqueMask poly_r poly_z
    .ok ((maskFilter poly_r unique).zip (maskFilter poly_z unique))

/-- Python `ValueError` classes raised by the `time` methods. -/
inductive TimeErr
  /-- "Requested time lies outside the range of the data: [{}, {}]s.": the
  payload is the pair of bounds interpolated into the message. -/
  | rangeError (bounds : ℚ × ℚ)
  /-- A `ValueError` propagated unchanged from `_process_efit_lcfs_polygon`. -/
  | polyError (e : PolyErr)
  deriving DecidableEq, Repr

/-- The parts of the `EFITEquilibrium` time-slice assembled by
`MASTEquilibrium.time` that the claims constrain: the selected time index,
the selected plasma-time index, and the two sanitised boundary polygons.
(The remaining fields are selected rows of archived arrays, passed through
unchanged.) -/
structure MASTSlice where
  index : Nat
  plasma_index : Nat
  lcfs_polygon : List (ℚ × ℚ)
  limiter_polygon : List (ℚ × ℚ)
  deriving DecidableEq, Repr

/-- Embedding of `MASTEquilibrium.time`.  The archived inputs appear as
arguments: the time base `time_slices`, the plasma time base `plasma_times`,
the per-slice LCFS coordinate rows with their point count `nlcfs`, and the
limiter coordinate arrays with their point count `nlimiter`.

```python
try:
    index = self._find_nearest(self.time_slices, time)
    plasma_index = self._find_nearest(self.plasma_times.data, time)
except IndexError:
    raise ValueError("Requested time lies outside the range of the data: [{}, {}]s."
                     .format(*self.time_range))
...
lcfs_poly_r = lcfs_poly_r[0:lcfs_points]
lcfs_poly_z = lcfs_poly_z[0:lcfs_points]
lcfs_polygon = self._process_efit_lcfs_polygon(lcfs_poly_r, lcfs_poly_z)
...
limiter_poly_r = limiter_poly_r[0:limiter_points]
limiter_poly_z = limiter_poly_z[0:limiter_points]
limiter_polygon = self._process_efit_lcfs_polygon(limiter_poly_r, limiter_poly_z)
```

`self.time_range` is `(time_slices.min(), time_slices.max())`, computed in
`__init__`.  A `ValueError` escaping `_process_efit_lcfs_polygon` propagates
unchanged (`polyError`). -/
def MAST_time (time_slices plasma_times : List ℚ)
    (lcfs_poly_r lcfs_poly_z : List ℚ) (lcfs_points : Nat)
    (limiter_poly_r limiter_poly_z : List ℚ) (limiter_points : Nat)
    (t : ℚ) : Except TimeErr MASTSlice :=
  match find_nearest time_slices t with
  | .error _ => .error (.rangeError (npMin time_slices, npMax time_slices))
  | .ok index =>
    match find_nearest plasma_times t with
    | .error _ => .error (.rangeError (npMin time_slices, npMax time_slices))
    | .ok plasma_index =>
      match process_efit_lcfs_polygon (lcfs_poly_r.take lcfs_points)
          (lcfs_poly_z.take lcfs_points) with
      | .error e => .error (.polyError e)
      | .ok lcfs_polygon =>
        match process_efit_lcfs_polygon (limiter_poly_r.take limiter_points)
            (limiter_poly_z.take limiter_points) with
        | .error e => .error (.polyError e)
        | .ok limiter_polygon =>
          .ok ⟨index, plasma_index, lcfs_polygon, limiter_polygon⟩

/-- Scan implementing `np.argmin(abs(array - value))`: `best` is the index of the smallest
distance seen so far and `bestd` that distance; a strictly smaller distance
updates the pair, so the first index attaining the minimum wins. -/
def argmin_abs_go (value : ℚ) : List ℚ → Nat → Nat → ℚ → Nat
  | [], _, best, _ => best
  | x :: xs, i, best, bestd =>
    if |x - value| < bestd then argmin_abs_go value xs (i + 1) i |x - value|
    else argmin_abs_go value xs (i + 1) best bestd

/-- Model of `np.argmin(abs(array - value))`: the first index of the element nearest to
`value` (junk value `0` on the empty array, where numpy raises; unreachable
behind the in-range check of `MASTUEquilibrium.time`). -/
def np_argmin_abs (array : List ℚ) (value : ℚ) : Nat :=
  match array with
  | [] => 0
  | x :: xs => argmin_abs_go value xs 1 0 |x - value|

/-- The boundary-polygon handling of `MASTUEquilibrium.time`:

```python
polygon = np.stack((poly_r, poly_z), axis=0)
if np.all(polygon[:, 0] == polygon[:, -1]):
    # First and last points are the same: need an open polygon for Cherab.
    polygon = polygon[:, :-1]
```

The 2×N array is modelled as the list of its (r, z) columns; the condition
compares both coordinates of the first and last column. -/
def mastu_open_polygon (poly_r poly_z : List ℚ) : List (ℚ × ℚ) :=
  if (poly_r.zip poly_z).head? = (poly_r.zip poly_z).getLast? then
    (poly_r.zip poly_z).dropLast
  else poly_r.zip poly_z

/-- The parts of the time-slice assembled by `MASTUEquilibrium.time` that the
claims constrain. -/
structure MASTUSlice where
  index : Nat
  lcfs_polygon : List (ℚ × ℚ)
  limiter_polygon : List (ℚ × ℚ)
  deriving DecidableEq, Repr

/-- Embedding of `MASTUEquilibrium.time`:

```python
tmin = self.time_slices.min()
tmax = self.time_slices.max()
if not tmin <= time <= tmax:
    raise ValueError("Requested time lies outside the range of the data: [{}, {}]s."
                     .format(tmin, tmax))
index = np.argmin(abs(self.time_slices - time))
```

followed by the open-polygon conversion of the per-slice LCFS boundary row
and of the limiter arrays (see `mastu_open_polygon`). -/
def MASTU_time (time_slices : List ℚ)
    (lcfs_poly_r lcfs_poly_z limiter_poly_r limiter_poly_z : List ℚ)
    (t : ℚ) : Except TimeErr MASTUSlice :=
  let tmin := npMin time_slices
  let tmax := npMax time_slices
  if ¬(tmin ≤ t ∧ t ≤ tmax) then .error (.rangeError (tmin, tmax))
  else
    .ok ⟨np_argmin_abs time_slices t,
         mastu_open_polygon lcfs_poly_r lcfs_poly_z,
         mastu_open_polygon limiter_poly_r limiter_poly_z⟩

/-- A boundary polygon is open when its last vertex differs from its first
vertex (so in particular it has at least two distinct end vertices). -/
def IsOpenPolygon (polygon : List (ℚ × ℚ)) : Prop :=
  polygon.getLast? ≠ polygon.head?

instance (polygon : List (ℚ × ℚ)) : Decidable (IsOpenPolygon polygon) := by
  unfold IsOpenPolygon; infer_instance

/-- Python `str.lower()` (ASCII lower-casing, which is all the call sites
use), mapped over the character list of the string. -/
def pyLower (s : String) : String := ⟨s.data.map Char.toLower⟩

/-- Errors raised by `load_default_bolometer_config`.  All but `udaException`
are Python `ValueError`s. -/
inductive BoloErr
  /-- Python `ValueError` from unpacking `bolometer_id.split("-")` into two names. -/
  | badIdFormat
  /-- Python `ValueError` for a chamber other than "SXDL" or "CORE". -/
  | badChamber
  /-- Python `ValueError` naming the recognised cameras of the chamber. -/
  | badCamera
  /-- Exception `pyuda.UDAException` raised when the geometry query fails. -/
  | udaException
  deriving DecidableEq, Repr

/-- The mesh-geometry entry selected by `load_default_bolometer_config`:
`SXD_BOLOMETERS[0]`, `SXD_BOLOMETERS[1]`, `CORE_BOLOMETERS[0]` or
`CORE_BOLOMETERS[1]`. -/
inductive MeshSelection
  | sxdOuter
  | sxdUpper
  | corePoloidal
  | coreTangential
  deriving DecidableEq, Repr

/-- The validation and camera-selection logic of
`load_default_bolometer_config` after the identifier has been split into the
stripped `chamber` and `camera_name` parts:

```python
if chamber.lower() not in ("sxdl", "core"):
    raise ValueError(...)   # Chamber must be SXDL or CORE
client = pyuda.Client()
try:
    bolometers = client.geometry(...).data
except AttributeError:
    raise pyuda.UDAException(...)
if chamber.lower() == "sxdl":
    if camera_name.lower() == "outer": ...SXD_BOLOMETERS[0]
    elif camera_name.lower() == "upper": ...SXD_BOLOMETERS[1]
    else: raise ValueError(...)   # For SXDL, camera name must be Outer or Upper
elif chamber.lower() == "core":
    if camera_name.lower() == "poloidal": ...CORE_BOLOMETERS[0]
    elif camera_name.lower() == "tangential": ...CORE_BOLOMETERS[1]
    else: raise ValueError(...)   # For Core, camera name must be Poloidal or Tangential
```

The external UDA geometry query sits between the chamber check and the camera
checks; its outcome is abstracted by the `udaOk` flag.  The final `else` arm
is unreachable: the membership guard has already rejected every other
chamber. -/
def load_bolometer_parsed (chamber camera_name : String) (udaOk : Bool) :
    Except BoloErr MeshSelection :=
  if pyLower chamber ≠ "sxdl" ∧ pyLower chamber ≠ "core" then .error .badChamber
  else if !udaOk then .error .udaException
  else if pyLower chamber = "sxdl" then
    if pyLower camera_name = "outer" then .ok .sxdOuter
    else if pyLower camera_name = "upper" then .ok .sxdUpper
    else .error .badCamera
  else if pyLower chamber = "core" then
    if pyLower camera_name = "poloidal" then .ok .corePoloidal
    else if pyLower camera_name = "tangential" then .ok .coreTangential
    else .error .badCamera
  else .error .badChamber

/-- Embedding of the identifier handling of `load_default_bolometer_config`:

```python
chamber, camera_name = [elem.strip() for elem in bolometer_id.split("-")]
```

A list of length other than two makes the unpacking raise a `ValueError`
(the surrounding `except KeyError` clause never fires: neither `split` nor
`strip` raises `KeyError`). -/
def load_default_bolometer_config (bolometer_id : String) (udaOk : Bool) :
    Except BoloErr MeshSelection :=
  match (bolometer_id.splitOn "-").map (fun e => e.trim) with
  | [chamber, camera_name] => load_bolometer_parsed chamber camera_name udaOk
  | _ => .error .badIdFormat

/-- The configuration selected by `main` in `rtm_sensitivities.py` for a
camera argument: the grid name, whether the P5 coils are shifted, whether the
MAST (rather than MAST-U) mesh set is loaded, whether a camera transform is
applied, and the possibly-trimmed camera name passed on. -/
structure RtmConfig where
  grid : String
  shift_p5 : Bool
  mast_mesh : Bool
  has_transform : Bool
  camera : String
  deriving DecidableEq, Repr

/-- Embedding of the camera dispatch of `main` in `rtm_sensitivities.py`:

```python
if camera in ("Outer", "Upper"): grid = "sxdl"
elif camera in ("Poloidal", "Tangential"): shift_p5 = True; grid = "core"
elif camera in ("PoloidalHighRes", "TangentialHighRes"):
    shift_p5 = True; grid = "core_high_res"; camera = camera[:-7]
elif camera == "Poloidal-MAST":
    MESH_PARTS = MAST_FULL_MESH; camera_transform = translate(0, 0.1, 0); grid = "core"
else:
    raise ValueError("The following cameras are supported: ...")
```

The raised error is a `ValueError` listing the fixed camera set. -/
def rtm_main_dispatch (camera : String) : Except BoloErr RtmConfig :=
  if camera = "Outer" ∨ camera = "Upper" then
    .ok ⟨"sxdl", false, false, false, camera⟩
  else if camera = "Poloidal" ∨ camera = "Tangential" then
    .ok ⟨"core", true, false, false, camera⟩
  else if camera = "PoloidalHighRes" ∨ camera = "TangentialHighRes" then
    .ok ⟨"core_high_res", true, false, false, camera.dropRight 7⟩
  else if camera = "Poloidal-MAST" then
    .ok ⟨"core", false, true, true, camera⟩
  else .error .badCamera

/-- Python `ValueError` raised by the pulse guards of the equilibrium constructors. -/
inductive InitErr
  | pulseRange
  deriving DecidableEq, Repr

/-- Marker that a constructor passed its pulse guard and went on to query the
archive (`self.client = pyuda.Client()` and the subsequent `client.get`
calls). -/
inductive InitProceed
  | archiveAccessed
  deriving DecidableEq, Repr

/-- The pulse guard of `MASTEquilibrium.__init__`, the first statement of the
constructor, executed before the pyuda client is created:

```python
if pulse >= 40000:
    raise ValueError("MASTEquilibrium on supports pulses before 40000. ...")
```

The pulse is modelled as a rational, covering integer and float arguments. -/
def MAST_init (pulse : ℚ) : Except InitErr InitProceed :=
  if 40000 ≤ pulse then .error .pulseRange else .ok .archiveAccessed

/-- A Python value passed as the `pulse` argument of
`MASTUEquilibrium.__init__`: an `int`, or a non-integer value such as a
`float` or a `str` (e.g. the path of a local file). -/
inductive PyPulse
  | int (n : ℤ)
  | float (x : ℚ)
  | str (s : String)
  deriving DecidableEq, Repr

/-- The pulse guard of `MASTUEquilibrium.__init__`, the first statement of the
constructor:

```python
if isinstance(pulse, int) and pulse < 40000:
    raise ValueError("MAST-U Equilibria only supported for pulse 40000 onwards.")
```

Any non-`int` argument fails the `isinstance` test, skipping the range check
entirely. -/
def MASTU_init (pulse : PyPulse) : Except InitErr InitProceed :=
  match pulse with
  | .int n => if n < 40000 then .error .pulseRange else .ok .archiveAccessed
  | .float _ => .ok .archiveAccessed
  | .str _ => .ok .archiveAccessed

/-! ## Helper lemmas about the polygon sanitiser -/

/-- Filtering two equal-length arrays by the mask `zipWith f` and zipping the
results is the same as filtering the zipped point list by the pointwise
predicate. -/
theorem maskFilter_zip_zipWith (f : ℚ → ℚ → Bool) (rs : List ℚ) :
    ∀ zs : List ℚ, rs.length = zs.length →
      (maskFilter rs (List.zipWith f rs zs)).zip (maskFilter zs (List.zipWith f rs zs)) =
        (rs.zip zs).filter (fun p => f p.1 p.2) := by
  induction rs with
  | nil => intro zs h; simp [maskFilter]
  | cons r rs ih =>
    intro zs h
    cases zs with
    | nil => simp at h
    | cons z zs =>
      have h' : rs.length = zs.length := by simpa using h
      simp only [List.zipWith_cons_cons, List.zip_cons_cons, List.filter_cons]
      cases hf : f r z with
      | false =>
        simp only [maskFilter, Bool.false_eq_true, if_false, hf]
        exact ih zs h'
      | true =>
        simp only [maskFilter, if_true, List.zip_cons_cons, hf]
        rw [ih zs h']

/-- Characterisation of the sanitiser on well-formed input: the output is the
first point followed by every later point that differs from the first point
(in either coordinate). -/
theorem process_efit_lcfs_polygon_cons (r0 z0 : ℚ) (rs zs : List ℚ)
    (hlen : rs.length = zs.length) (hne : rs ≠ []) :
    process_efit_lcfs_polygon (r0 :: rs) (z0 :: zs) =
      .ok ((r0, z0) :: (rs.zip zs).filter (fun p => decide (p ≠ (r0, z0)))) := by
  have hlen2 : ¬((r0 :: rs).length < 2) := by
    cases rs with
    | nil => exact absurd rfl hne
    | cons a l => simp [List.length_cons]
  unfold process_efit_lcfs_polygon
  rw [if_neg (by simp [hlen]), if_neg hlen2]
  show Except.ok
      ((maskFilter (r0 :: rs) (uniqueMask (r0 :: rs) (z0 :: zs))).zip
        (maskFilter (z0 :: zs) (uniqueMask (r0 :: rs) (z0 :: zs)))) = _
  unfold uniqueMask
  simp only [maskFilter, if_true, List.zip_cons_cons]
  rw [maskFilter_zip_zipWith _ rs zs hlen]
  congr 2
  apply List.filter_congr
  intro p _
  cases p with
  | mk pr pz =>
    by_cases h1 : pr = r0 <;> by_cases h2 : pz = z0 <;> simp [h1, h2]

/-- If the last element of a list is `p0` and no earlier element is, filtering
out `p0` removes exactly the last element. -/
theorem filter_ne_of_getLast (p0 : ℚ × ℚ) :
    ∀ l : List (ℚ × ℚ), l.getLast? = some p0 → (∀ p ∈ l.dropLast, p ≠ p0) →
      l.filter (fun p => decide (p ≠ p0)) = l.dropLast := by
  intro l
  induction l with
  | nil => intro h; simp at h
  | cons a l ih =>
    intro h hmem
    cases l with
    | nil =>
      have ha : a = p0 := by simpa using h
      simp [List.filter, ha]
    | cons b t =>
      have h' : (b :: t).getLast? = some p0 := by
        rwa [List.getLast?_cons_cons] at h
      have hd : (a :: b :: t).dropLast = a :: (b :: t).dropLast := rfl
      rw [hd] at hmem ⊢
      have ha : a ≠ p0 := hmem a (by simp)
      rw [List.filter_cons, if_pos (by simpa using ha)]
      rw [ih h' (fun p hp => hmem p (List.mem_cons_of_mem _ hp))]

/-! ## C6 -/

/-- C6: for every pair of equal-length coordinate arrays with at least 2
points, the sanitiser keeps the first point as the first output vertex,
removes every other point equal to the first point in both coordinates, and
retains every point differing from the first point — including exact repeats
of other interior points, which are not deduplicated.  All of this is
captured by the output being the first point followed by the filtered tail. -/
theorem sanitiser_keeps_first_and_filters_only_first_duplicates
    (r0 z0 : ℚ) (rs zs : List ℚ) (hlen : rs.length = zs.length) (hne : rs ≠ []) :
    process_efit_lcfs_polygon (r0 :: rs) (z0 :: zs) =
      .ok ((r0, z0) :: (rs.zip zs).filter (fun p => decide (p ≠ (r0, z0)))) :=
  process_efit_lcfs_polygon_cons r0 z0 rs zs hlen hne

/-- C6 witness: the tail point (1, 2) repeats three times and every repeat is
retained; the two interior copies of the first point (0, 0) are removed. -/
theorem sanitiser_keeps_first_and_filters_only_first_duplicates_witness :
    process_efit_lcfs_polygon [0, 1, 0, 1, 1] [0, 2, 0, 2, 2] =
      .ok [((0 : ℚ), (0 : ℚ)), (1, 2), (1, 2), (1, 2)] := by
  have h := sanitiser_keeps_first_and_filters_only_first_duplicates
    0 0 [1, 0, 1, 1] [2, 0, 2, 2] (by decide) (by decide)
  rw [h]
  decide

/-! ## C3 -/

/-- C3 counterexample: the arrays form a closed polygon of N = 5 points
(first vertex equals last vertex), yet the sanitiser returns 3 points, not
N - 1 = 4, because the interior copy of the first vertex is removed too. -/
theorem sanitiser_closed_polygon_counterexample :
    process_efit_lcfs_polygon [0, 1, 0, 1, 0] [0, 0, 0, 1, 0] =
      .ok [((0 : ℚ), (0 : ℚ)), (1, 0), (1, 1)] ∧
    [((0 : ℚ), (0 : ℚ)), (1, 0), (1, 1)].length ≠ 5 - 1 := by
  constructor
  · decide
  · decide

/-- C3 (amended): for a closed polygon of N ≥ 3 points in which the first
vertex does not recur in the interior, the sanitiser returns exactly N - 1
points, with the original first vertex first and no trailing duplicate of
it. -/
theorem sanitiser_closed_polygon_returns_n_minus_one
    (r0 z0 : ℚ) (rs zs : List ℚ) (hlen : rs.length = zs.length)
    (hN : 2 ≤ rs.length)
    (hclosed : (rs.zip zs).getLast? = some (r0, z0))
    (hinterior : ∀ p ∈ (rs.zip zs).dropLast, p ≠ (r0, z0)) :
    process_efit_lcfs_polygon (r0 :: rs) (z0 :: zs) =
      .ok ((r0, z0) :: (rs.zip zs).dropLast) ∧
    ((r0, z0) :: (rs.zip zs).dropLast).length = (r0 :: rs).length - 1 ∧
    ((r0, z0) :: (rs.zip zs).dropLast).head? = some (r0, z0) ∧
    ((r0, z0) :: (rs.zip zs).dropLast).getLast? ≠ some (r0, z0) := by
  have hne : rs ≠ [] := by
    intro h
    rw [h] at hN
    simp at hN
  have hlz : (rs.zip zs).length = rs.length := by
    rw [List.length_zip, hlen, min_self]
  have hchar := process_efit_lcfs_polygon_cons r0 z0 rs zs hlen hne
  have hfil := filter_ne_of_getLast (r0, z0) (rs.zip zs) hclosed hinterior
  refine ⟨by rw [hchar, hfil], ?_, rfl, ?_⟩
  · simp only [List.length_cons, List.length_dropLast, hlz]
    omega
  · have hdne : (rs.zip zs).dropLast ≠ [] := by
      intro hnil
      have := List.length_dropLast (rs.zip zs)
      rw [hnil, hlz] at this
      simp at this
      omega
    cases hdl : (rs.zip zs).dropLast with
    | nil => exact absurd hdl hdne
    | cons q t =>
      rw [List.getLast?_cons_cons]
      intro hlast
      have hqmem : (q :: t).getLast (by simp) ∈ q :: t := List.getLast_mem _
      have hlast' : (q :: t).getLast (by simp) = (r0, z0) := by
        have := List.getLast?_eq_getLast (q :: t) (by simp)
        rw [this] at hlast
        exact Option.some.inj hlast
      have : (r0, z0) ∈ (rs.zip zs).dropLast := by
        rw [hdl]
        rw [← hlast']
        exact hqmem
      exact hinterior _ this rfl

/-- C3 witness: the example given in the spec — the closed unit square sanitises to its
four distinct corners, first corner preserved, no trailing duplicate. -/
theorem sanitiser_closed_polygon_returns_n_minus_one_witness :
    process_efit_lcfs_polygon [0, 1, 1, 0, 0] [0, 0, 1, 1, 0] =
      .ok [((0 : ℚ), (0 : ℚ)), (1, 0), (1, 1), (0, 1)] := by
  have h := (sanitiser_closed_polygon_returns_n_minus_one
    0 0 [1, 1, 0, 0] [0, 1, 1, 0] (by decide) (by decide) (by decide)
    (by decide)).1
  rw [h]
  decide

/-! ## C7 -/

/-- C7 counterexample: the input has 2 points, but both coincide, so only a
single point remains after deduplication — fewer than 2 — and the sanitiser
returns it without raising any error (the too-few-points check runs on the
input length, before deduplication). -/
theorem sanitiser_degenerate_pair_counterexample :
    process_efit_lcfs_polygon [0, 0] [0, 0] = .ok [((0 : ℚ), (0 : ℚ))] ∧
    [((0 : ℚ), (0 : ℚ))].length < 2 := by
  constructor
  · decide
  · decide

/-- C7 (amended): the sanitiser raises a shape-mismatch `ValueError` whenever
the coordinate arrays have different lengths, raises a too-few-points
`ValueError` whenever the *input* has fewer than 2 points (the check precedes
deduplication), and returns normally in every other case. -/
theorem sanitiser_error_conditions (poly_r poly_z : List ℚ) :
    (poly_r.length ≠ poly_z.length →
      process_efit_lcfs_polygon poly_r poly_z = .error .shapeMismatch) ∧
    (poly_r.length = poly_z.length → poly_r.length < 2 →
      process_efit_lcfs_polygon poly_r poly_z = .error .tooFewPoints) ∧
    (poly_r.length = poly_z.length → 2 ≤ poly_r.length →
      ∃ l, process_efit_lcfs_polygon poly_r poly_z = .ok l) := by
  unfold process_efit_lcfs_polygon
  refine ⟨fun h => by rw [if_pos h], fun h1 h2 => ?_, fun h1 h2 => ?_⟩
  · rw [if_neg (by simp [h1]), if_pos h2]
  · rw [if_neg (by simp [h1]), if_neg (by omega)]
    exact ⟨_, rfl⟩

/-- C7 witness: each of the three cases at a concrete input. -/
theorem sanitiser_error_conditions_witness :
    process_efit_lcfs_polygon [0] [0, 1] = .error .shapeMismatch ∧
    process_efit_lcfs_polygon [0] [0] = .error .tooFewPoints ∧
    ∃ l, process_efit_lcfs_polygon [0, 1] [0, 1] = .ok l := by
  refine ⟨(sanitiser_error_conditions [0] [0, 1]).1 (by decide),
    (sanitiser_error_conditions [0] [0]).2.1 (by decide) (by decide),
    (sanitiser_error_conditions [0, 1] [0, 1]).2.2 (by decide) (by decide)⟩

/-! ## C4 -/

/-- The sanitised output `first :: filter` is open as soon as some later
point differs from the first point: everything surviving the filter differs
from the first point, so in particular the last vertex does. -/
theorem isOpen_cons_filter (p0 : ℚ × ℚ) (l : List (ℚ × ℚ))
    (h : ∃ p ∈ l, p ≠ p0) :
    IsOpenPolygon (p0 :: l.filter (fun p => decide (p ≠ p0))) := by
  obtain ⟨p, hp, hnep⟩ := h
  have hmem : p ∈ l.filter (fun p => decide (p ≠ p0)) :=
    List.mem_filter.mpr ⟨hp, by simpa using hnep⟩
  cases hf : l.filter (fun p => decide (p ≠ p0)) with
  | nil =>
    rw [hf] at hmem
    simp at hmem
  | cons b t =>
    unfold IsOpenPolygon
    rw [List.getLast?_cons_cons, List.head?_cons]
    rw [List.getLast?_eq_getLast (b :: t) (by simp)]
    intro heq
    have hlast : (b :: t).getLast (by simp) = p0 := Option.some.inj heq
    have hin : p0 ∈ b :: t := hlast ▸ List.getLast_mem _
    rw [← hf] at hin
    have := List.of_mem_filter hin
    simp at this

/-- The head survives `dropLast` on a list of at least two elements. -/
theorem head?_dropLast_of_two_le (l : List (ℚ × ℚ)) (h : 2 ≤ l.length) :
    l.dropLast.head? = l.head? := by
  cases l with
  | nil => simp at h
  | cons a l' =>
    cases l' with
    | nil => simp at h
    | cons b t => rfl

/-- The MASTU open-polygon conversion yields an open polygon whenever the
input has at least two points and, if it is closed, its second-to-last point
differs from its first point. -/
theorem mastu_open_polygon_isOpen (poly_r poly_z : List ℚ)
    (h2 : 2 ≤ (poly_r.zip poly_z).length)
    (hpen : (poly_r.zip poly_z).head? = (poly_r.zip poly_z).getLast? →
      (poly_r.zip poly_z).dropLast.getLast? ≠ (poly_r.zip poly_z).head?) :
    IsOpenPolygon (mastu_open_polygon poly_r poly_z) := by
  unfold mastu_open_polygon IsOpenPolygon
  by_cases hc : (poly_r.zip poly_z).head? = (poly_r.zip poly_z).getLast?
  · rw [if_pos hc, head?_dropLast_of_two_le _ h2]
    exact hpen hc
  · rw [if_neg hc]
    exact fun heq => hc heq.symm

/-- C4 counterexample: the archived LCFS polygon
`[(0,0), (1,0), (0,0), (0,0)]` is closed (first point equals last point), yet
the slice returned by `MASTUEquilibrium.time` holds the polygon
`[(0,0), (1,0), (0,0)]`, whose last vertex still equals its first vertex: the
conversion drops only a single duplicated closing vertex. -/
theorem mastu_time_polygon_not_open_counterexample :
    MASTU_time [0] [0, 1, 0, 0] [0, 0, 0, 0] [0, 1] [1, 0] 0 =
      .ok ⟨0, [((0 : ℚ), (0 : ℚ)), (1, 0), (0, 0)], [(0, 1), (1, 0)]⟩ ∧
    ¬ IsOpenPolygon [((0 : ℚ), (0 : ℚ)), (1, 0), (0, 0)] := by
  constructor
  · norm_num [MASTU_time, np_argmin_abs, argmin_abs_go, npMin, npMax,
      mastu_open_polygon]
  · decide

/-- C4 (amended): every LCFS and limiter polygon in a returned time-slice is
open, provided that for the MAST variant some point of each input polygon
(after padding removal) differs from its first point, and for the MASTU
variant each input polygon has at least two points and — when it is closed —
its second-to-last point differs from its first point (the conversion
removes only a single duplicated closing vertex). -/
theorem time_slice_polygons_open :
    (∀ (ts pt : List ℚ) (r0 z0 : ℚ) (rs zs : List ℚ) (m0 w0 : ℚ)
        (ms ws : List ℚ) (t : ℚ) (s : MASTSlice),
      rs.length = zs.length → ms.length = ws.length →
      (∃ p ∈ rs.zip zs, p ≠ (r0, z0)) →
      (∃ p ∈ ms.zip ws, p ≠ (m0, w0)) →
      MAST_time ts pt (r0 :: rs) (z0 :: zs) (rs.length + 1)
        (m0 :: ms) (w0 :: ws) (ms.length + 1) t = .ok s →
      IsOpenPolygon s.lcfs_polygon ∧ IsOpenPolygon s.limiter_polygon) ∧
    (∀ (ts lr lz mr mz : List ℚ) (t : ℚ) (s : MASTUSlice),
      2 ≤ (lr.zip lz).length →
      ((lr.zip lz).head? = (lr.zip lz).getLast? →
        (lr.zip lz).dropLast.getLast? ≠ (lr.zip lz).head?) →
      2 ≤ (mr.zip mz).length →
      ((mr.zip mz).head? = (mr.zip mz).getLast? →
        (mr.zip mz).dropLast.getLast? ≠ (mr.zip mz).head?) →
      MASTU_time ts lr lz mr mz t = .ok s →
      IsOpenPolygon s.lcfs_polygon ∧ IsOpenPolygon s.limiter_polygon) := by
  constructor
  · intro ts pt r0 z0 rs zs m0 w0 ms ws t s hlen1 hlen2 hex1 hex2 h
    have hne1 : rs ≠ [] := by
      rintro rfl
      rcases hex1 with ⟨p, hp, _⟩
      simp at hp
    have hne2 : ms ≠ [] := by
      rintro rfl
      rcases hex2 with ⟨p, hp, _⟩
      simp at hp
    have t1 : rs.take rs.length = rs := List.take_length rs
    have t2 : zs.take rs.length = zs := by rw [hlen1]; exact List.take_length zs
    have t3 : ms.take ms.length = ms := List.take_length ms
    have t4 : ws.take ms.length = ws := by rw [hlen2]; exact List.take_length ws
    simp only [MAST_time, List.take_succ_cons, t1, t2, t3, t4] at h
    rw [process_efit_lcfs_polygon_cons r0 z0 rs zs hlen1 hne1,
      process_efit_lcfs_polygon_cons m0 w0 ms ws hlen2 hne2] at h
    cases h1 : find_nearest ts t with
    | error e =>
      rw [h1] at h
      exact absurd h (by simp)
    | ok i =>
      cases h2 : find_nearest pt t with
      | error e =>
        rw [h1, h2] at h
        exact absurd h (by simp)
      | ok j =>
        rw [h1, h2] at h
        simp only [Except.ok.injEq] at h
        subst h
        exact ⟨isOpen_cons_filter (r0, z0) (rs.zip zs) hex1,
          isOpen_cons_filter (m0, w0) (ms.zip ws) hex2⟩
  · intro ts lr lz mr mz t s h2l hpenl h2m hpenm h
    simp only [MASTU_time] at h
    by_cases hc : ¬(npMin ts ≤ t ∧ t ≤ npMax ts)
    · rw [if_pos hc] at h
      exact absurd h (by simp)
    · rw [if_neg hc] at h
      simp only [Except.ok.injEq] at h
      subst h
      exact ⟨mastu_open_polygon_isOpen lr lz h2l hpenl,
        mastu_open_polygon_isOpen mr mz h2m hpenm⟩

/-- C4 witness: both variants produce open polygons on inputs satisfying the
amended side conditions (an open square for MAST; a closed triangle and an
open triangle for MASTU). -/
theorem time_slice_polygons_open_witness :
    (IsOpenPolygon [((0 : ℚ), (0 : ℚ)), (1, 0), (1, 1), (0, 1)] ∧
      IsOpenPolygon [((0 : ℚ), (0 : ℚ)), (1, 0), (1, 1), (0, 1)]) ∧
    (IsOpenPolygon [((0 : ℚ), (0 : ℚ)), (2, 0), (2, 2)] ∧
      IsOpenPolygon [((0 : ℚ), (0 : ℚ)), (3, 0), (3, 3)]) := by
  constructor
  · exact (time_slice_polygons_open).1 [0, 1, 2] [0, 1, 2] 0 0 [1, 1, 0]
      [0, 1, 1] 0 0 [1, 1, 0] [0, 1, 1] 0
      ⟨0, 0, [(0, 0), (1, 0), (1, 1), (0, 1)], [(0, 0), (1, 0), (1, 1), (0, 1)]⟩
      (by decide) (by decide) (by decide) (by decide)
      (by norm_num [MAST_time, find_nearest, searchsorted_left, npMin, npMax,
        List.countP, List.countP.go, process_efit_lcfs_polygon, uniqueMask,
        maskFilter])
  · exact (time_slice_polygons_open).2 [0, 1] [0, 2, 2, 0] [0, 0, 2, 0]
      [0, 3, 3] [0, 0, 3] 0 ⟨0, [(0, 0), (2, 0), (2, 2)], [(0, 0), (3, 0), (3, 3)]⟩
      (by decide) (by decide) (by decide) (by decide)
      (by norm_num [MASTU_time, np_argmin_abs, argmin_abs_go, npMin, npMax,
        mastu_open_polygon, Prod.ext_iff])

/-! ## C1 -/

/-- C1 (code bug): on the example given in the spec itself — sample times
`[0.0, 0.1, 0.2, 0.3]`, query `0.24` — `_find_nearest` does not return the
nearest index 2: the left insertion point is 3, the comparison reads
`array[4]` out of bounds, and the call raises `IndexError`.  Moreover for
query `0.14` it returns index 2 even though index 1 is strictly nearer: the
code compares the insertion point with its successor instead of with its
predecessor. -/
theorem find_nearest_wrong_on_spec_example :
    find_nearest [0, 0.1, 0.2, 0.3] 0.24 = .error .indexError ∧
    find_nearest [0, 0.1, 0.2, 0.3] 0.14 = .ok 2 ∧
    |(0.1 : ℚ) - 0.14| < |(0.2 : ℚ) - 0.14| := by
  refine ⟨?_, ?_, by norm_num [abs_of_nonneg, abs_of_nonpos]⟩
  · norm_num [find_nearest, searchsorted_left, npMin, npMax, List.countP,
      List.countP.go]
  · norm_num [find_nearest, searchsorted_left, npMin, npMax, List.countP,
      List.countP.go]

/-! ## C2 -/

/-- C2: for every query time strictly below the minimum sample or strictly
above the maximum sample, both `time` methods raise a `ValueError` carrying
the valid bounds `[min, max]` of the time base. -/
theorem time_out_of_range_raises_range_valueError
    (ts pt lr lz mr mz : List ℚ) (nl nm : Nat) (t : ℚ)
    (hne : ts ≠ []) (hout : t < npMin ts ∨ npMax ts < t) :
    MAST_time ts pt lr lz nl mr mz nm t =
      .error (.rangeError (npMin ts, npMax ts)) ∧
    MASTU_time ts lr lz mr mz t =
      .error (.rangeError (npMin ts, npMax ts)) := by
  constructor
  · have h : find_nearest ts t = .error .indexError := by
      unfold find_nearest
      rw [if_pos hout]
    simp only [MAST_time, h]
  · have hcond : ¬(npMin ts ≤ t ∧ t ≤ npMax ts) := by
      rcases hout with h | h
      · exact fun hc => absurd hc.1 (not_le.mpr h)
      · exact fun hc => absurd hc.2 (not_le.mpr h)
    simp only [MASTU_time]
    rw [if_pos hcond]

/-- C2 witness: `t = 5` lies above the time base `[0, 1]`, and both variants
report the range `[0, 1]`. -/
theorem time_out_of_range_raises_range_valueError_witness :
    MAST_time [0, 1] [0, 1] [0, 1] [0, 1] 2 [0, 1] [0, 1] 2 5 =
      .error (.rangeError (0, 1)) ∧
    MASTU_time [0, 1] [0, 1] [0, 1] [0, 1] [0, 1] 5 =
      .error (.rangeError (0, 1)) := by
  have h := time_out_of_range_raises_range_valueError [0, 1] [0, 1] [0, 1]
    [0, 1] [0, 1] [0, 1] 2 2 5 (by decide) (by norm_num [npMin, npMax])
  have h0 : npMin [(0 : ℚ), 1] = 0 := by norm_num [npMin]
  have h1 : npMax [(0 : ℚ), 1] = 1 := by norm_num [npMax]
  rw [h0, h1] at h
  exact h

/-! ## C5 -/

/-- C5: on every strictly ascending sample array and in-range query,
`_find_nearest` is extensionally equal to the reference algorithm of the
spec: binary-search the insertion point, compare the squared distances to
the sample there and to the sample at the next index, and return whichever
index is closer, ties resolving to the later index (a missing next sample is
a failure in both). -/
theorem find_nearest_matches_spec_steps (a : List ℚ) (v : ℚ)
    (hasc : List.Sorted (· < ·) a) (hlo : npMin a ≤ v) (hhi : v ≤ npMax a) :
    find_nearest a v = spec_find_nearest a v := by
  simp only [find_nearest, spec_find_nearest]
  by_cases hc : v < npMin a ∨ npMax a < v
  · rw [if_pos hc, if_pos hc]
  · rw [if_neg hc, if_neg hc]
    cases h1 : a.get? (searchsorted_left a v) with
    | none => rfl
    | some x =>
      cases h2 : a.get? (searchsorted_left a v + 1) with
      | none => rfl
      | some y =>
        show (if (v - x) ^ 2 < (v - y) ^ 2 then
            Except.ok (searchsorted_left a v)
          else Except.ok (searchsorted_left a v + 1)) =
          (if (v - y) ^ 2 ≤ (v - x) ^ 2 then
            Except.ok (searchsorted_left a v + 1)
          else Except.ok (searchsorted_left a v))
        rcases le_or_lt ((v - y) ^ 2) ((v - x) ^ 2) with h | h
        · rw [if_neg (not_lt.mpr h), if_pos h]
        · rw [if_pos h, if_neg (not_le.mpr h)]

/-- C5 witness: at the tie query 0.5 on `[0, 1, 2]` both algorithms agree and
resolve the tie to the later index 1. -/
theorem find_nearest_matches_spec_steps_witness :
    find_nearest [0, 1, 2] (1 / 2) = spec_find_nearest [0, 1, 2] (1 / 2) ∧
    spec_find_nearest [0, 1, 2] (1 / 2) = .ok 1 := by
  refine ⟨find_nearest_matches_spec_steps [0, 1, 2] (1 / 2)
    (by norm_num [List.sorted_cons]) (by norm_num [npMin])
    (by norm_num [npMax]), ?_⟩
  norm_num [spec_find_nearest, searchsorted_left, npMin, npMax, List.countP,
    List.countP.go]

/-! ## C8 -/

/-- C8: the two time-slice selections are not extensionally equal.  At the
in-range boundary query `t = max(samples)` the MAST variant raises the
out-of-range `ValueError` while the MASTU variant succeeds, and at a tie
query the selected indices differ (the MAST variant resolves ties to the
later index, `np.argmin` to the earlier one). -/
theorem mast_and_mastu_time_not_extensionally_equal :
    (∃ (ts : List ℚ) (t : ℚ),
      npMin ts ≤ t ∧ t ≤ npMax ts ∧
      (∃ b, MAST_time ts ts [0, 1] [0, 1] 2 [0, 1] [0, 1] 2 t =
        .error (.rangeError b)) ∧
      (∃ s, MASTU_time ts [0, 1] [0, 1] [0, 1] [0, 1] t = .ok s)) ∧
    (∃ (ts : List ℚ) (t : ℚ) (k l : Nat) (s1 : MASTSlice) (s2 : MASTUSlice),
      k ≠ l ∧ |ts.getD k 0 - t| = |ts.getD l 0 - t| ∧
      MAST_time ts ts [0, 1] [0, 1] 2 [0, 1] [0, 1] 2 t = .ok s1 ∧
      MASTU_time ts [0, 1] [0, 1] [0, 1] [0, 1] t = .ok s2 ∧
      s1.index ≠ s2.index) := by
  constructor
  · refine ⟨[0, 1, 2], 2, ?_, ?_, ⟨(0, 2), ?_⟩,
      ⟨⟨2, [(0, 0), (1, 1)], [(0, 0), (1, 1)]⟩, ?_⟩⟩
    · norm_num [npMin]
    · norm_num [npMax]
    · norm_num [MAST_time, find_nearest, searchsorted_left, npMin, npMax,
        List.countP, List.countP.go]
    · norm_num [MASTU_time, npMin, npMax, np_argmin_abs, argmin_abs_go,
        mastu_open_polygon, Prod.ext_iff, abs_of_nonneg, abs_of_nonpos]
  · refine ⟨[0, 1, 2], 1 / 2, 0, 1, ⟨1, 1, [(0, 0), (1, 1)], [(0, 0), (1, 1)]⟩,
      ⟨0, [(0, 0), (1, 1)], [(0, 0), (1, 1)]⟩, by norm_num, ?_, ?_, ?_,
      by norm_num⟩
    · norm_num [List.getD, abs_of_nonneg, abs_of_nonpos]
    · norm_num [MAST_time, find_nearest, searchsorted_left, npMin, npMax,
        List.countP, List.countP.go, process_efit_lcfs_polygon, uniqueMask,
        maskFilter, Prod.ext_iff]
    · norm_num [MASTU_time, npMin, npMax, np_argmin_abs, argmin_abs_go,
        mastu_open_polygon, Prod.ext_iff, abs_of_nonneg, abs_of_nonpos]

/-! ## C9 -/

/-- C9: `load_default_bolometer_config` raises a `ValueError` for every
chamber part other than SXDL/CORE (case-insensitive) — before the archive is
touched — and for every camera part unrecognised for its chamber; the batch
driver raises a `ValueError` for every camera argument outside its fixed
enumerated set. -/
theorem bolometer_unknown_names_rejected :
    (∀ (chamber camera : String) (udaOk : Bool),
      pyLower chamber ≠ "sxdl" → pyLower chamber ≠ "core" →
      load_bolometer_parsed chamber camera udaOk = .error .badChamber) ∧
    (∀ chamber camera : String, pyLower chamber = "sxdl" →
      pyLower camera ≠ "outer" → pyLower camera ≠ "upper" →
      load_bolometer_parsed chamber camera true = .error .badCamera) ∧
    (∀ chamber camera : String, pyLower chamber = "core" →
      pyLower camera ≠ "poloidal" → pyLower camera ≠ "tangential" →
      load_bolometer_parsed chamber camera true = .error .badCamera) ∧
    (∀ camera : String,
      camera ≠ "Outer" → camera ≠ "Upper" → camera ≠ "Poloidal" →
      camera ≠ "Tangential" → camera ≠ "PoloidalHighRes" →
      camera ≠ "TangentialHighRes" → camera ≠ "Poloidal-MAST" →
      rtm_main_dispatch camera = .error .badCamera) := by
  refine ⟨?_, ?_, ?_, ?_⟩
  · intro chamber camera udaOk h1 h2
    simp [load_bolometer_parsed, h1, h2]
  · intro chamber camera h1 hc1 hc2
    simp [load_bolometer_parsed, h1, hc1, hc2]
  · intro chamber camera h1 hc1 hc2
    simp [load_bolometer_parsed, h1, hc1, hc2]
  · intro camera h1 h2 h3 h4 h5 h6 h7
    simp [rtm_main_dispatch, h1, h2, h3, h4, h5, h6, h7]

/-- C9 witness: a wrong chamber, wrong cameras for each chamber (with the
archive reachable), and an unsupported batch-driver camera are all
rejected. -/
theorem bolometer_unknown_names_rejected_witness :
    load_bolometer_parsed "XDIV" "Outer" true = .error .badChamber ∧
    load_bolometer_parsed "SXDL" "Inner" true = .error .badCamera ∧
    load_bolometer_parsed "Core" "Radial" true = .error .badCamera ∧
    rtm_main_dispatch "Sideways" = .error .badCamera := by
  refine ⟨bolometer_unknown_names_rejected.1 "XDIV" "Outer" true
      (by decide) (by decide),
    bolometer_unknown_names_rejected.2.1 "SXDL" "Inner"
      (by decide) (by decide) (by decide),
    bolometer_unknown_names_rejected.2.2.1 "Core" "Radial"
      (by decide) (by decide) (by decide),
    bolometer_unknown_names_rejected.2.2.2 "Sideways"
      (by decide) (by decide) (by decide) (by decide) (by decide) (by decide)
      (by decide)⟩

/-! ## C10 -/

/-- C10: `MASTEquilibrium.__init__` raises a `ValueError` for every pulse
at or above 40000 before any archive access, `MASTUEquilibrium.__init__`
raises a `ValueError` for every integer pulse below 40000, and non-integer
pulse arguments bypass the MASTU range check entirely. -/
theorem equilibrium_init_pulse_guards :
    (∀ pulse : ℚ, 40000 ≤ pulse → MAST_init pulse = .error .pulseRange) ∧
    (∀ n : ℤ, n < 40000 → MASTU_init (.int n) = .error .pulseRange) ∧
    (∀ x : ℚ, MASTU_init (.float x) = .ok .archiveAccessed) ∧
    (∀ s : String, MASTU_init (.str s) = .ok .archiveAccessed) := by
  refine ⟨?_, ?_, fun x => rfl, fun s => rfl⟩
  · intro pulse h
    simp [MAST_init, h]
  · intro n h
    simp [MASTU_init, h]

/-- C10 witness: pulse 40000 is rejected by the MAST variant, integer pulse
39999 by the MASTU variant, and a non-integer pulse 39999.5 bypasses the
MASTU check. -/
theorem equilibrium_init_pulse_guards_witness :
    MAST_init 40000 = .error .pulseRange ∧
    MASTU_init (.int 39999) = .error .pulseRange ∧
    MASTU_init (.float (mkRat 79999 2)) = .ok .archiveAccessed := by
  exact ⟨equilibrium_init_pulse_guards.1 40000 (by norm_num),
    equilibrium_init_pulse_guards.2.1 39999 (by norm_num),
    equilibrium_init_pulse_guards.2.2.1 (mkRat 79999 2)⟩

end CherabMastu
